import Mathlib

/-!
Shallow embedding of the Atomthreads event-flag module (kernel/atomevent.c).

The event object holds a 32-bit flag word, an optional single suspended
waiter (a TCB pointer) and the wait mask that waiter is blocked on.  The
five public operations atomEventCreate / atomEventDelete / atomEventWait /
atomEventSet / atomEventClear and the internal timeout callback
atomEventTimerCallback are embedded as pure functions over explicit state.

External collaborators (tcbEnqueuePriority, atomTimerRegister,
atomTimerCancel, atomCurrentContext, atomSched) are passed in as oracle
parameters: a Bool telling whether the call succeeds, an Option ATOM_TCB
for the current context, and recorded effects (whether the waiter was put
on the ready queue, whether the scheduler was invoked) in the result.

A NULL pointer argument is modelled as `none`; the caller-provided value
out-parameter of atomEventWait is modelled as `Option Nat` carrying the
current contents of the pointed-to word (`none` = NULL pointer).

atomEventWait is split at its single suspension point (the atomSched call
at line 388 of atomevent.c) into `atomEventWaitEntry`, everything up to and
including the decision to suspend, and `atomEventWaitResume`, the code run
after the suspended thread is scheduled back in (lines 395..411).
-/

namespace AtomEvent

/-- Status codes of atom.h used by the event module (taxonomy of the
distinct `ATOM_*` return values; only their distinctness matters). -/
inductive AtomStatus where
  | ok          -- ATOM_OK
  | timedOut    -- ATOM_TIMEOUT
  | wouldBlock  -- ATOM_WOULDBLOCK
  | deleted     -- ATOM_ERR_DELETED
  | contextErr  -- ATOM_ERR_CONTEXT
  | paramErr    -- ATOM_ERR_PARAM
  | queueErr    -- ATOM_ERR_QUEUE
  | timerErr    -- ATOM_ERR_TIMER
deriving DecidableEq, Repr

/-- The part of an ATOM_TIMER callback record the event module fills in:
the tick count.  cb_func is always atomEventTimerCallback and cb_data the
event object itself, so neither needs to be carried. -/
structure ATOM_TIMER where
  cb_ticks : Int
deriving DecidableEq, Repr

/-- The fields of an ATOM_TCB the event module reads or writes. -/
structure ATOM_TCB where
  suspended : Bool
  suspend_wake_status : AtomStatus
  suspend_timo_cb : Option ATOM_TIMER
deriving DecidableEq, Repr

/-- ATOM_EVENT from atomevent.h: suspended thread pointer, 32-bit flag
word and the waiter wait mask.  The waiter TCB is held by value; the
aliasing between `event->tcb_ptr` and the waiter thread own TCB is kept
explicit in the theorems. -/
structure ATOM_EVENT where
  tcb_ptr : Option ATOM_TCB
  flags : Nat
  mask : Nat
deriving DecidableEq, Repr

/-- Bitwise complement on 32-bit words: `~m` of C for `m < 2^32`. -/
def compl32 (m : Nat) : Nat := m ^^^ 0xFFFFFFFF

/-- atomEventCreate (atomevent.c lines 102..126): parameter check, then
initialise flags, mask and the suspended-thread pointer. -/
def atomEventCreate (event : Option ATOM_EVENT) : AtomStatus × Option ATOM_EVENT :=
  match event with
  | none => (.paramErr, none)
  | some _ => (.ok, some { tcb_ptr := none, flags := 0, mask := 0 })

/-- Result of atomEventDelete: return status, updated event, whether the
waiter was enqueued on the ready queue, whether a pending timeout was
cancelled, and whether the scheduler was invoked. -/
structure DeleteResult where
  status : AtomStatus
  event : Option ATOM_EVENT
  enqueuedWaiter : Bool
  cancelledTimer : Bool
  schedCalled : Bool
deriving DecidableEq, Repr

/-- atomEventDelete (atomevent.c lines 149..239).  `enqueueOk` is the
result of tcbEnqueuePriority, `cancelOk` of atomTimerCancel,
`inThreadContext` whether atomCurrentContext() is non-NULL.  The wake
status ATOM_ERR_DELETED is written to the waiter TCB before the enqueue
attempt (line 179); on enqueue failure the loop breaks with ATOM_ERR_QUEUE,
on cancel failure with ATOM_ERR_TIMER, in both cases before
`woken_threads` is set, so the scheduler is not invoked on those paths. -/
def atomEventDelete (event : Option ATOM_EVENT) (enqueueOk cancelOk inThreadContext : Bool) :
    DeleteResult :=
  match event with
  | none =>
    { status := .paramErr, event := none,
      enqueuedWaiter := false, cancelledTimer := false, schedCalled := false }
  | some ev =>
    match ev.tcb_ptr with
    | none =>
      { status := .ok, event := some ev,
        enqueuedWaiter := false, cancelledTimer := false, schedCalled := false }
    | some tcb =>
      let tcb1 : ATOM_TCB := { tcb with suspend_wake_status := .deleted }
      if enqueueOk then
        match tcb1.suspend_timo_cb with
        | some _ =>
          if cancelOk then
            { status := .ok,
              event := some { ev with tcb_ptr := some { tcb1 with suspend_timo_cb := none } },
              enqueuedWaiter := true, cancelledTimer := true, schedCalled := inThreadContext }
          else
            { status := .timerErr, event := some { ev with tcb_ptr := some tcb1 },
              enqueuedWaiter := true, cancelledTimer := false, schedCalled := false }
        | none =>
          { status := .ok, event := some { ev with tcb_ptr := some tcb1 },
            enqueuedWaiter := true, cancelledTimer := false, schedCalled := inThreadContext }
      else
        { status := .queueErr, event := some { ev with tcb_ptr := some tcb1 },
          enqueuedWaiter := false, cancelledTimer := false, schedCalled := false }

/-- Result of atomEventSet, same shape as DeleteResult. -/
structure SetResult where
  status : AtomStatus
  event : Option ATOM_EVENT
  enqueuedWaiter : Bool
  cancelledTimer : Bool
  schedCalled : Bool
deriving DecidableEq, Repr

/-- atomEventSet (atomevent.c lines 472..549).  Flags are or-ed in
unconditionally (line 490).  The wake test (line 493) reads the already
updated flags word against the stored wait mask.  The waiter is enqueued
before its wake status is assigned; on enqueue failure the function
returns ATOM_ERR_QUEUE with the flags already updated and the waiter TCB
untouched.  If a pending timeout exists and atomTimerCancel fails, the
status is ATOM_ERR_TIMER but the thread was already enqueued with wake
status ATOM_OK and the scheduler is still invoked (lines 510..534). -/
def atomEventSet (event : Option ATOM_EVENT) (mask : Nat)
    (enqueueOk cancelOk inThreadContext : Bool) : SetResult :=
  match event with
  | none =>
    { status := .paramErr, event := none,
      enqueuedWaiter := false, cancelledTimer := false, schedCalled := false }
  | some ev =>
    if mask = 0 then
      { status := .paramErr, event := some ev,
        enqueuedWaiter := false, cancelledTimer := false, schedCalled := false }
    else
      let flags1 := ev.flags ||| mask
      match ev.tcb_ptr with
      | some tcb =>
        if flags1 &&& ev.mask ≠ 0 then
          if enqueueOk then
            let tcb1 : ATOM_TCB := { tcb with suspend_wake_status := .ok }
            match tcb1.suspend_timo_cb with
            | some _ =>
              if cancelOk then
                let tcb2 : ATOM_TCB := { tcb1 with suspend_timo_cb := none }
                { status := .ok,
                  event := some { ev with flags := flags1, tcb_ptr := some tcb2 },
                  enqueuedWaiter := true, cancelledTimer := true,
                  schedCalled := inThreadContext }
              else
                { status := .timerErr,
                  event := some { ev with flags := flags1, tcb_ptr := some tcb1 },
                  enqueuedWaiter := true, cancelledTimer := false,
                  schedCalled := inThreadContext }
            | none =>
              { status := .ok,
                event := some { ev with flags := flags1, tcb_ptr := some tcb1 },
                enqueuedWaiter := true, cancelledTimer := false,
                schedCalled := inThreadContext }
          else
            { status := .queueErr, event := some { ev with flags := flags1 },
              enqueuedWaiter := false, cancelledTimer := false, schedCalled := false }
        else
          { status := .ok, event := some { ev with flags := flags1 },
            enqueuedWaiter := false, cancelledTimer := false, schedCalled := false }
      | none =>
        { status := .ok, event := some { ev with flags := flags1 },
          enqueuedWaiter := false, cancelledTimer := false, schedCalled := false }

/-- atomEventClear (atomevent.c lines 569..596): parameter check, then
`flags &= ~mask` and ATOM_OK.  Nothing else is read or written. -/
def atomEventClear (event : Option ATOM_EVENT) (mask : Nat) : AtomStatus × Option ATOM_EVENT :=
  match event with
  | none => (.paramErr, none)
  | some ev => (.ok, some { ev with flags := ev.flags &&& compl32 mask })

/-- Result of the entry half of atomEventWait.  `suspends = true` means
the calling thread was recorded as the waiter, marked suspended and
handed to atomSched; `suspends = false` means the call returned `status`
without suspending.  `timer` is the one-shot timer registration in effect
at the suspension point (none when no timer was registered). -/
structure WaitEntryResult where
  suspends : Bool
  status : AtomStatus
  event : Option ATOM_EVENT
  value : Option Nat
  curr_tcb : Option ATOM_TCB
  timer : Option ATOM_TIMER
deriving DecidableEq, Repr

/-- Entry half of atomEventWait (atomevent.c lines 288..388 and the
non-blocking return paths).  After the NULL-event check the out-parameter
is zeroed (lines 306..307) before anything else is decided.  `ctx` is
atomCurrentContext() (`none` in interrupt context), `timerRegOk` the
result of atomTimerRegister. -/
def atomEventWaitEntry (event : Option ATOM_EVENT) (mask : Nat) (value : Option Nat)
    (timeout : Int) (ctx : Option ATOM_TCB) (timerRegOk : Bool) : WaitEntryResult :=
  match event with
  | none =>
    { suspends := false, status := .paramErr, event := none,
      value := value, curr_tcb := ctx, timer := none }
  | some ev =>
    let value0 := value.map (fun _ => 0)
    if ev.flags &&& mask = 0 then
      if 0 ≤ timeout then
        match ctx with
        | some curr =>
          if ev.tcb_ptr.isSome then
            { suspends := false, status := .queueErr, event := some ev,
              value := value0, curr_tcb := some curr, timer := none }
          else
            if timeout ≠ 0 then
              let tmr : ATOM_TIMER := { cb_ticks := timeout }
              if timerRegOk then
                let curr1 : ATOM_TCB :=
                  { curr with suspended := true, suspend_timo_cb := some tmr }
                { suspends := true, status := .ok,
                  event := some { ev with tcb_ptr := some curr1, mask := mask },
                  value := value0, curr_tcb := some curr1, timer := some tmr }
              else
                { suspends := false, status := .timerErr,
                  event := some { ev with tcb_ptr := none, mask := 0 },
                  value := value0,
                  curr_tcb := some { curr with suspended := false, suspend_timo_cb := none },
                  timer := none }
            else
              let curr1 : ATOM_TCB :=
                { curr with suspended := true, suspend_timo_cb := none }
              { suspends := true, status := .ok,
                event := some { ev with tcb_ptr := some curr1, mask := mask },
                value := value0, curr_tcb := some curr1, timer := none }
        | none =>
          { suspends := false, status := .contextErr, event := some ev,
            value := value0, curr_tcb := none, timer := none }
      else
        { suspends := false, status := .wouldBlock, event := some ev,
          value := value0, curr_tcb := ctx, timer := none }
    else
      { suspends := false, status := .ok, event := some ev,
        value := value.map (fun _ => ev.flags &&& mask), curr_tcb := ctx, timer := none }

/-- Resumption half of atomEventWait (atomevent.c lines 395..411), run
when the suspended thread is scheduled back in: the return status is the
wake status found in the calling thread TCB; only on ATOM_OK is the
out-parameter set to `flags & mask` of the event (the stored wait mask);
then the waiter slot and stored mask are cleared unconditionally. -/
def atomEventWaitResume (ev : ATOM_EVENT) (curr : ATOM_TCB) (value : Option Nat) :
    AtomStatus × ATOM_EVENT × Option Nat :=
  let status := curr.suspend_wake_status
  let value1 :=
    if status = .ok then value.map (fun _ => ev.flags &&& ev.mask) else value
  (status, { ev with tcb_ptr := none, mask := 0 }, value1)

/-- atomEventTimerCallback (atomevent.c lines 610..641): writes
ATOM_TIMEOUT into the waiter TCB wake status, clears its pending-timeout
pointer, and enqueues it on the ready queue (result ignored).  It
dereferences `event->tcb_ptr` without a check; `none` models that null
dereference when no waiter is present.  The Bool records the enqueue. -/
def atomEventTimerCallback (ev : ATOM_EVENT) : Option (ATOM_EVENT × Bool) :=
  match ev.tcb_ptr with
  | none => none
  | some tcb =>
    let tcb1 : ATOM_TCB := { tcb with suspend_wake_status := .timedOut, suspend_timo_cb := none }
    some ({ ev with tcb_ptr := some tcb1 }, true)

/-! ## Claim theorems -/

/-- C1: for every event with non-null reference and every mask ≠ 0,
atomEventSet updates flags to `flags ||| mask` unconditionally (any waiter
state, any overlap with already-set bits), and (with a healthy ready
queue) it enqueues the waiter exactly when a waiter exists and
`(flags ||| mask) &&& wait_mask ≠ 0` evaluated after the update; with a
null event reference or mask = 0 it returns ATOM_ERR_PARAM without
changing flags. -/
theorem C1_atomEventSet_flags_and_wake (ev : ATOM_EVENT) (m : Nat)
    (cancelOk ctx eOk cOk xOk : Bool) (hm : m ≠ 0) :
    (∃ ev', (atomEventSet (some ev) m true cancelOk ctx).event = some ev' ∧
      ev'.flags = ev.flags ||| m) ∧
    ((atomEventSet (some ev) m true cancelOk ctx).enqueuedWaiter = true ↔
      ev.tcb_ptr.isSome = true ∧ (ev.flags ||| m) &&& ev.mask ≠ 0) ∧
    ((atomEventSet none m eOk cOk xOk).status = .paramErr ∧
      (atomEventSet none m eOk cOk xOk).event = none) ∧
    ((atomEventSet (some ev) 0 eOk cOk xOk).status = .paramErr ∧
      (atomEventSet (some ev) 0 eOk cOk xOk).event = some ev) := by
  unfold atomEventSet
  rcases h : ev.tcb_ptr with _ | tcb
  · simp [hm, h]
  · rcases h2 : tcb.suspend_timo_cb with _ | tm <;>
      simp [hm, h, h2] <;> split_ifs <;> simp_all

theorem C1_witness :
    (∃ ev', (atomEventSet (some ⟨some ⟨true, .paramErr, none⟩, 4, 1⟩) 2 true true true).event
        = some ev' ∧ ev'.flags = 4 ||| 2) ∧
    ((atomEventSet (some ⟨some ⟨true, .paramErr, none⟩, 4, 1⟩) 2 true true true).enqueuedWaiter
        = true ↔
      (some (⟨true, .paramErr, none⟩ : ATOM_TCB)).isSome = true ∧ (4 ||| 2) &&& 1 ≠ 0) ∧
    ((atomEventSet none 2 true true true).status = .paramErr ∧
      (atomEventSet none 2 true true true).event = none) ∧
    ((atomEventSet (some ⟨some ⟨true, .paramErr, none⟩, 4, 1⟩) 0 true true true).status
        = .paramErr ∧
      (atomEventSet (some ⟨some ⟨true, .paramErr, none⟩, 4, 1⟩) 0 true true true).event
        = some ⟨some ⟨true, .paramErr, none⟩, 4, 1⟩) :=
  C1_atomEventSet_flags_and_wake ⟨some ⟨true, .paramErr, none⟩, 4, 1⟩ 2
    true true true true true (by decide)

/-- C2: whenever `flags &&& mask ≠ 0` at call time, atomEventWait returns
ATOM_OK synchronously without suspending, writes `flags &&& mask` to the
value out-parameter (when provided), and leaves the event — flags, waiter
slot and stored wait mask — entirely unchanged, for every timeout value
and every calling context. -/
theorem C2_wait_immediate_success (ev : ATOM_EVENT) (m : Nat) (v : Option Nat)
    (t : Int) (ctx : Option ATOM_TCB) (rOk : Bool) (h : ev.flags &&& m ≠ 0) :
    (atomEventWaitEntry (some ev) m v t ctx rOk).suspends = false ∧
    (atomEventWaitEntry (some ev) m v t ctx rOk).status = .ok ∧
    (atomEventWaitEntry (some ev) m v t ctx rOk).event = some ev ∧
    (atomEventWaitEntry (some ev) m v t ctx rOk).value = v.map (fun _ => ev.flags &&& m) ∧
    (atomEventWaitEntry (some ev) m v t ctx rOk).curr_tcb = ctx ∧
    (atomEventWaitEntry (some ev) m v t ctx rOk).timer = none := by
  simp [atomEventWaitEntry, h]

theorem C2_witness :
    (atomEventWaitEntry (some ⟨none, 5, 0⟩) 1 (some 9) (-1) none true).suspends = false ∧
    (atomEventWaitEntry (some ⟨none, 5, 0⟩) 1 (some 9) (-1) none true).status = .ok ∧
    (atomEventWaitEntry (some ⟨none, 5, 0⟩) 1 (some 9) (-1) none true).event = some ⟨none, 5, 0⟩ ∧
    (atomEventWaitEntry (some ⟨none, 5, 0⟩) 1 (some 9) (-1) none true).value
      = (some 9).map (fun _ => 5 &&& 1) ∧
    (atomEventWaitEntry (some ⟨none, 5, 0⟩) 1 (some 9) (-1) none true).curr_tcb = none ∧
    (atomEventWaitEntry (some ⟨none, 5, 0⟩) 1 (some 9) (-1) none true).timer = none :=
  C2_wait_immediate_success ⟨none, 5, 0⟩ 1 (some 9) (-1) none true (by decide)

/-- C3: the resumption path of a blocking atomEventWait returns the wake
status found in the calling thread TCB unchanged; when that status is
ATOM_OK the value delivered through the out-parameter is
`flags &&& wait_mask` at the moment of wake, using the stored wait mask,
not the full flags word; when it is ATOM_TIMEOUT or ATOM_ERR_DELETED that
status is propagated and the out-parameter is left with the contents it
had at suspension (zero), not set to the flags. -/
theorem C3_resume_exact_mask_delivery (ev : ATOM_EVENT) (curr : ATOM_TCB) (v : Option Nat) :
    (atomEventWaitResume ev curr v).1 = curr.suspend_wake_status ∧
    (curr.suspend_wake_status = .ok →
      (atomEventWaitResume ev curr v).2.2 = v.map (fun _ => ev.flags &&& ev.mask)) ∧
    ((curr.suspend_wake_status = .timedOut ∨ curr.suspend_wake_status = .deleted) →
      (atomEventWaitResume ev curr v).1 = curr.suspend_wake_status ∧
      (atomEventWaitResume ev curr v).2.2 = v) := by
  unfold atomEventWaitResume
  refine ⟨rfl, fun h => by simp [h], fun h => ?_⟩
  rcases h with h | h <;> simp [h]

theorem C3_witness :
    (atomEventWaitResume ⟨some ⟨true, .timedOut, none⟩, 6, 3⟩ ⟨true, .timedOut, none⟩
        (some 0)).1 = AtomStatus.timedOut ∧
    (atomEventWaitResume ⟨some ⟨true, .timedOut, none⟩, 6, 3⟩ ⟨true, .timedOut, none⟩
        (some 0)).2.2 = some 0 := by
  have h := C3_resume_exact_mask_delivery ⟨some ⟨true, .timedOut, none⟩, 6, 3⟩
    ⟨true, .timedOut, none⟩ (some 0)
  exact ⟨h.1, (h.2.2 (Or.inl rfl)).2⟩

/-- C8: for every non-null event and every mask, including mask = 0,
atomEventClear sets flags to `flags &&& ~mask`, returns ATOM_OK, wakes no
thread (the waiter slot, the embedded waiter TCB and the stored wait mask
are untouched and no ready-queue or scheduler effect exists on this
path), and fails with ATOM_ERR_PARAM exactly on a null reference. -/
theorem C8_atomEventClear_spec (ev : ATOM_EVENT) (m : Nat) :
    (atomEventClear (some ev) m).1 = .ok ∧
    (atomEventClear (some ev) m).2 = some { ev with flags := ev.flags &&& compl32 m } ∧
    (∃ ev', (atomEventClear (some ev) m).2 = some ev' ∧
      ev'.tcb_ptr = ev.tcb_ptr ∧ ev'.mask = ev.mask) ∧
    atomEventClear none m = (.paramErr, none) := by
  refine ⟨rfl, rfl, ⟨{ ev with flags := ev.flags &&& compl32 m }, rfl, rfl, rfl⟩, rfl⟩

/-- C4: when `flags &&& mask = 0` at call time, atomEventWait is fully
determined by timeout and context: any timeout < 0 returns
ATOM_WOULDBLOCK immediately without touching scheduler state; timeout = 0
suspends indefinitely with no timer callback registered; timeout > 0
suspends with a one-shot timer callback of exactly `timeout` ticks, and
on expiry without a prior wakeup the callback marks the waiter
ATOM_TIMEOUT so the resumed call returns TimedOut; and any timeout ≥ 0
from interrupt context returns ATOM_ERR_CONTEXT without suspending. -/
theorem C4_wait_blocking_behaviour (ev : ATOM_EVENT) (m : Nat) (v : Option Nat)
    (hflags : ev.flags &&& m = 0) :
    (∀ t : Int, t < 0 → ∀ ctx rOk,
      (atomEventWaitEntry (some ev) m v t ctx rOk).suspends = false ∧
      (atomEventWaitEntry (some ev) m v t ctx rOk).status = .wouldBlock ∧
      (atomEventWaitEntry (some ev) m v t ctx rOk).event = some ev ∧
      (atomEventWaitEntry (some ev) m v t ctx rOk).curr_tcb = ctx ∧
      (atomEventWaitEntry (some ev) m v t ctx rOk).timer = none) ∧
    (∀ curr rOk, ev.tcb_ptr = none →
      (atomEventWaitEntry (some ev) m v 0 (some curr) rOk).suspends = true ∧
      (atomEventWaitEntry (some ev) m v 0 (some curr) rOk).timer = none ∧
      (atomEventWaitEntry (some ev) m v 0 (some curr) rOk).event = some { ev with tcb_ptr := some { curr with suspended := true, suspend_timo_cb := none }, mask := m }) ∧
    (∀ t : Int, 0 < t → ∀ curr, ev.tcb_ptr = none →
      (atomEventWaitEntry (some ev) m v t (some curr) true).suspends = true ∧
      (atomEventWaitEntry (some ev) m v t (some curr) true).timer = some ⟨t⟩ ∧
      (∃ ev1 tcb1 ev2 tcb2,
        (atomEventWaitEntry (some ev) m v t (some curr) true).event = some ev1 ∧
        ev1.tcb_ptr = some tcb1 ∧ tcb1.suspend_timo_cb = some ⟨t⟩ ∧
        atomEventTimerCallback ev1 = some (ev2, true) ∧
        ev2.tcb_ptr = some tcb2 ∧
        ∀ w, (atomEventWaitResume ev2 tcb2 w).1 = .timedOut)) ∧
    (∀ t : Int, 0 ≤ t → ∀ rOk,
      (atomEventWaitEntry (some ev) m v t none rOk).status = .contextErr ∧
      (atomEventWaitEntry (some ev) m v t none rOk).suspends = false ∧
      (atomEventWaitEntry (some ev) m v t none rOk).event = some ev) := by
  refine ⟨?_, ?_, ?_, ?_⟩
  · intro t ht ctx rOk
    simp [atomEventWaitEntry, hflags, show ¬(0 ≤ t) from not_le.mpr ht]
  · intro curr rOk hfree
    simp [atomEventWaitEntry, hflags, hfree]
  · intro t ht curr hfree
    refine ⟨?_, ?_, ?_⟩
    · simp [atomEventWaitEntry, hflags, hfree, le_of_lt ht, ht.ne']
    · simp [atomEventWaitEntry, hflags, hfree, le_of_lt ht, ht.ne']
    · refine ⟨{ ev with tcb_ptr := some { curr with suspended := true, suspend_timo_cb := some ⟨t⟩ }, mask := m }, { curr with suspended := true, suspend_timo_cb := some ⟨t⟩ }, { ev with tcb_ptr := some { curr with suspended := true, suspend_wake_status := .timedOut, suspend_timo_cb := none }, mask := m }, { curr with suspended := true, suspend_wake_status := .timedOut, suspend_timo_cb := none }, ?_, rfl, rfl, ?_, rfl, ?_⟩
      · simp [atomEventWaitEntry, hflags, hfree, le_of_lt ht, ht.ne']
      · simp [atomEventTimerCallback]
      · intro w
        simp [atomEventWaitResume]
  · intro t ht rOk
    simp [atomEventWaitEntry, hflags, ht]

theorem C4_witness :
    ((0 : Nat) &&& 1 = 0) ∧
    (atomEventWaitEntry (some ⟨none, 0, 0⟩) 1 (some 0) (-1) none true).status
      = AtomStatus.wouldBlock ∧
    (atomEventWaitEntry (some ⟨none, 0, 0⟩) 1 (some 0) 0
      (some ⟨false, .paramErr, none⟩) true).suspends = true ∧
    (atomEventWaitEntry (some ⟨none, 0, 0⟩) 1 (some 0) 7
      (some ⟨false, .paramErr, none⟩) true).timer = some ⟨7⟩ ∧
    (atomEventWaitEntry (some ⟨none, 0, 0⟩) 1 (some 0) 0 none true).status
      = AtomStatus.contextErr := by
  have h := C4_wait_blocking_behaviour ⟨none, 0, 0⟩ 1 (some 0) (by decide)
  refine ⟨by decide, (h.1 (-1) (by decide) none true).2.1, ?_, ?_, ?_⟩
  · exact (h.2.1 ⟨false, .paramErr, none⟩ true rfl).1
  · exact (h.2.2.1 7 (by decide) ⟨false, .paramErr, none⟩ rfl).2.1
  · exact (h.2.2.2 0 (by decide) true).1

/-- C7: a blocking atomEventWait (timeout ≥ 0, `flags &&& mask = 0`,
thread context) on an event whose waiter slot is already occupied returns
ATOM_ERR_QUEUE without suspending, and leaves the existing waiter, the
flags and the stored wait mask unchanged. -/
theorem C7_second_waiter_rejected (ev : ATOM_EVENT) (t0 curr : ATOM_TCB) (m : Nat)
    (v : Option Nat) (t : Int) (rOk : Bool)
    (hw : ev.tcb_ptr = some t0) (hf : ev.flags &&& m = 0) (ht : 0 ≤ t) :
    (atomEventWaitEntry (some ev) m v t (some curr) rOk).suspends = false ∧
    (atomEventWaitEntry (some ev) m v t (some curr) rOk).status = .queueErr ∧
    (atomEventWaitEntry (some ev) m v t (some curr) rOk).event = some ev ∧
    (atomEventWaitEntry (some ev) m v t (some curr) rOk).curr_tcb = some curr ∧
    (atomEventWaitEntry (some ev) m v t (some curr) rOk).timer = none := by
  simp [atomEventWaitEntry, hf, ht, hw]

theorem C7_witness :
    (atomEventWaitEntry (some ⟨some ⟨true, .paramErr, none⟩, 0, 1⟩) 2 (some 0) 0
      (some ⟨false, .paramErr, none⟩) true).suspends = false ∧
    (atomEventWaitEntry (some ⟨some ⟨true, .paramErr, none⟩, 0, 1⟩) 2 (some 0) 0
      (some ⟨false, .paramErr, none⟩) true).status = .queueErr ∧
    (atomEventWaitEntry (some ⟨some ⟨true, .paramErr, none⟩, 0, 1⟩) 2 (some 0) 0
      (some ⟨false, .paramErr, none⟩) true).event = some ⟨some ⟨true, .paramErr, none⟩, 0, 1⟩ ∧
    (atomEventWaitEntry (some ⟨some ⟨true, .paramErr, none⟩, 0, 1⟩) 2 (some 0) 0
      (some ⟨false, .paramErr, none⟩) true).curr_tcb = some ⟨false, .paramErr, none⟩ ∧
    (atomEventWaitEntry (some ⟨some ⟨true, .paramErr, none⟩, 0, 1⟩) 2 (some 0) 0
      (some ⟨false, .paramErr, none⟩) true).timer = none :=
  C7_second_waiter_rejected ⟨some ⟨true, .paramErr, none⟩, 0, 1⟩ ⟨true, .paramErr, none⟩
    ⟨false, .paramErr, none⟩ 2 (some 0) 0 true rfl (by decide) (by decide)

/-- C10: if timer registration fails inside a blocking atomEventWait
(timeout > 0), the call returns ATOM_ERR_TIMER with no suspension and
rolls back: the waiter slot is reset to empty, the stored wait mask to 0,
flags are untouched, and the calling TCB is left not suspended with no
pending-timeout pointer; hence when the pre-call state had the normal
values for a running thread (not suspended, no pending timeout, empty
waiter slot, stored mask 0) the event and the TCB are exactly as before
the call. -/
theorem C10_timer_register_failure_rollback (ev : ATOM_EVENT) (curr : ATOM_TCB) (m : Nat)
    (v : Option Nat) (t : Int) (hf : ev.flags &&& m = 0) (hw : ev.tcb_ptr = none)
    (ht : 0 < t) :
    (atomEventWaitEntry (some ev) m v t (some curr) false).suspends = false ∧
    (atomEventWaitEntry (some ev) m v t (some curr) false).status = .timerErr ∧
    (atomEventWaitEntry (some ev) m v t (some curr) false).event = some { ev with tcb_ptr := none, mask := 0 } ∧
    (atomEventWaitEntry (some ev) m v t (some curr) false).curr_tcb = some { curr with suspended := false, suspend_timo_cb := none } ∧
    (atomEventWaitEntry (some ev) m v t (some curr) false).timer = none ∧
    (ev.mask = 0 → curr.suspended = false → curr.suspend_timo_cb = none →
      (atomEventWaitEntry (some ev) m v t (some curr) false).event = some ev ∧
      (atomEventWaitEntry (some ev) m v t (some curr) false).curr_tcb = some curr) := by
  have hmain : (atomEventWaitEntry (some ev) m v t (some curr) false).event = some { ev with tcb_ptr := none, mask := 0 } ∧ (atomEventWaitEntry (some ev) m v t (some curr) false).curr_tcb = some { curr with suspended := false, suspend_timo_cb := none } := by
    constructor <;> simp [atomEventWaitEntry, hf, hw, le_of_lt ht, ht.ne']
  refine ⟨?_, ?_, hmain.1, hmain.2, ?_, ?_⟩
  · simp [atomEventWaitEntry, hf, hw, le_of_lt ht, ht.ne']
  · simp [atomEventWaitEntry, hf, hw, le_of_lt ht, ht.ne']
  · simp [atomEventWaitEntry, hf, hw, le_of_lt ht, ht.ne']
  · intro h1 h2 h3
    refine ⟨hmain.1.trans ?_, hmain.2.trans ?_⟩
    · cases ev
      simp_all
    · cases curr
      simp_all

theorem C10_witness :
    ((3 : Nat) &&& 4 = 0) ∧
    (atomEventWaitEntry (some ⟨none, 3, 0⟩) 4 (some 0) 5
      (some ⟨false, .paramErr, none⟩) false).status = AtomStatus.timerErr ∧
    (atomEventWaitEntry (some ⟨none, 3, 0⟩) 4 (some 0) 5
      (some ⟨false, .paramErr, none⟩) false).event = some ⟨none, 3, 0⟩ ∧
    (atomEventWaitEntry (some ⟨none, 3, 0⟩) 4 (some 0) 5
      (some ⟨false, .paramErr, none⟩) false).curr_tcb = some ⟨false, .paramErr, none⟩ := by
  have h := C10_timer_register_failure_rollback ⟨none, 3, 0⟩ ⟨false, .paramErr, none⟩ 4
    (some 0) 5 (by decide) rfl (by decide)
  exact ⟨by decide, h.2.1, (h.2.2.2.2.2 rfl rfl rfl).1, (h.2.2.2.2.2 rfl rfl rfl).2⟩

/-- C6: with exactly one blocked waiter, atomEventDelete assigns wake
status ATOM_ERR_DELETED, enqueues the waiter on the ready queue, cancels
its pending timeout when one is registered, and returns ATOM_OK; on a
null reference it returns ATOM_ERR_PARAM; if the ready-queue insertion
fails it returns ATOM_ERR_QUEUE, if the timeout cancellation fails
ATOM_ERR_TIMER, both aborting mid-way without invoking the scheduler; and
delete directly after create (no waiter) always returns ATOM_OK. -/
theorem C6_atomEventDelete_spec (ev : ATOM_EVENT) (tcb : ATOM_TCB) (tm : ATOM_TIMER)
    (c x e2 c2 x2 : Bool) (hw : ev.tcb_ptr = some tcb) :
    (tcb.suspend_timo_cb = none →
      (atomEventDelete (some ev) true c x).status = .ok ∧
      (atomEventDelete (some ev) true c x).enqueuedWaiter = true ∧
      (atomEventDelete (some ev) true c x).event = some { ev with tcb_ptr := some { tcb with suspend_wake_status := .deleted } }) ∧
    (tcb.suspend_timo_cb = some tm →
      (atomEventDelete (some ev) true true x).status = .ok ∧
      (atomEventDelete (some ev) true true x).enqueuedWaiter = true ∧
      (atomEventDelete (some ev) true true x).cancelledTimer = true ∧
      (atomEventDelete (some ev) true true x).event = some { ev with tcb_ptr := some { tcb with suspend_wake_status := .deleted, suspend_timo_cb := none } }) ∧
    ((atomEventDelete none e2 c2 x2).status = .paramErr) ∧
    ((atomEventDelete (some ev) false c x).status = .queueErr ∧
      (atomEventDelete (some ev) false c x).enqueuedWaiter = false ∧
      (atomEventDelete (some ev) false c x).schedCalled = false) ∧
    (tcb.suspend_timo_cb = some tm →
      (atomEventDelete (some ev) true false x).status = .timerErr ∧
      (atomEventDelete (some ev) true false x).enqueuedWaiter = true ∧
      (atomEventDelete (some ev) true false x).cancelledTimer = false ∧
      (atomEventDelete (some ev) true false x).schedCalled = false) ∧
    (∀ e0 : ATOM_EVENT, ∀ e3 c3 x3 : Bool,
      (atomEventDelete (atomEventCreate (some e0)).2 e3 c3 x3).status = .ok ∧
      (atomEventDelete (atomEventCreate (some e0)).2 e3 c3 x3).event = (atomEventCreate (some e0)).2) := by
  refine ⟨?_, ?_, rfl, ?_, ?_, ?_⟩
  · intro h
    simp [atomEventDelete, hw, h]
  · intro h
    simp [atomEventDelete, hw, h]
  · simp [atomEventDelete, hw]
  · intro h
    simp [atomEventDelete, hw, h]
  · intro e0 e3 c3 x3
    simp [atomEventDelete, atomEventCreate]

theorem C6_witness :
    (atomEventDelete (some ⟨some ⟨true, .paramErr, some ⟨5⟩⟩, 0, 1⟩) true true true).status
      = AtomStatus.ok ∧
    (atomEventDelete (some ⟨some ⟨true, .paramErr, some ⟨5⟩⟩, 0, 1⟩) true true true).enqueuedWaiter
      = true ∧
    (atomEventDelete (some ⟨some ⟨true, .paramErr, some ⟨5⟩⟩, 0, 1⟩) true true true).cancelledTimer
      = true ∧
    (atomEventDelete none true true true).status = AtomStatus.paramErr ∧
    (atomEventDelete (some ⟨some ⟨true, .paramErr, some ⟨5⟩⟩, 0, 1⟩) false true true).status
      = AtomStatus.queueErr ∧
    (atomEventDelete (some ⟨some ⟨true, .paramErr, some ⟨5⟩⟩, 0, 1⟩) true false true).status
      = AtomStatus.timerErr ∧
    (atomEventDelete (atomEventCreate (some ⟨none, 9, 9⟩)).2 true true true).status
      = AtomStatus.ok := by
  have h := C6_atomEventDelete_spec ⟨some ⟨true, .paramErr, some ⟨5⟩⟩, 0, 1⟩
    ⟨true, .paramErr, some ⟨5⟩⟩ ⟨5⟩ true true true true true rfl
  refine ⟨(h.2.1 rfl).1, (h.2.1 rfl).2.1, (h.2.1 rfl).2.2.1, h.2.2.1, h.2.2.2.1.1,
    (h.2.2.2.2.1 rfl).1, (h.2.2.2.2.2 ⟨none, 9, 9⟩ true true true).1⟩

/-- C5 as stated is false at this input: atomEventSet wakes the waiting
thread (it is enqueued on the ready queue with wake status ATOM_OK and
its pending timeout cleared) yet the event waiter slot is still occupied
after the call returns — atomEventSet never writes `event->tcb_ptr`. -/
theorem C5_counterexample :
    (atomEventSet (some ⟨some ⟨true, .paramErr, none⟩, 0, 1⟩) 1 true true true).enqueuedWaiter
      = true ∧
    Option.bind (atomEventSet (some ⟨some ⟨true, .paramErr, none⟩, 0, 1⟩) 1 true
      true true).event ATOM_EVENT.tcb_ptr ≠ none := by
  decide

/-- C5 amended: none of the three resolution paths (atomEventSet,
atomEventDelete, the timeout callback) clears the event waiter slot; each
assigns the wake status inside its critical section (the callback also
clearing the pending-timeout pointer), and the waiter slot and stored
wait mask are cleared by the woken thread itself in atomEventWait's
resumption path, unconditionally for every wake status. -/
theorem C5_amended_resumer_clears_slot (ev : ATOM_EVENT) (tcb : ATOM_TCB)
    (m : Nat) (cOk eOk cOk2 x : Bool) (hw : ev.tcb_ptr = some tcb) :
    (Option.bind (atomEventSet (some ev) m true cOk x).event ATOM_EVENT.tcb_ptr ≠ none) ∧
    (Option.bind (atomEventDelete (some ev) eOk cOk2 x).event ATOM_EVENT.tcb_ptr ≠ none) ∧
    (atomEventTimerCallback ev = some ({ ev with tcb_ptr := some { tcb with suspend_wake_status := .timedOut, suspend_timo_cb := none } }, true)) ∧
    (∀ e c w, (atomEventWaitResume e c w).2.1.tcb_ptr = none ∧
      (atomEventWaitResume e c w).2.1.mask = 0) := by
  refine ⟨?_, ?_, ?_, ?_⟩
  · unfold atomEventSet
    rcases h2 : tcb.suspend_timo_cb with _ | tm <;>
      simp [hw, h2] <;> split_ifs <;> simp_all
  · unfold atomEventDelete
    rcases h2 : tcb.suspend_timo_cb with _ | tm <;>
      simp [hw, h2] <;> split_ifs <;> simp_all
  · simp [atomEventTimerCallback, hw]
  · intro e c w
    exact ⟨rfl, rfl⟩

theorem C5_amended_witness :
    Option.bind (atomEventSet (some ⟨some ⟨true, .paramErr, none⟩, 0, 1⟩) 1 true
      true true).event ATOM_EVENT.tcb_ptr ≠ none ∧
    Option.bind (atomEventDelete (some ⟨some ⟨true, .paramErr, none⟩, 0, 1⟩) true
      true true).event ATOM_EVENT.tcb_ptr ≠ none ∧
    (atomEventWaitResume ⟨some ⟨true, .ok, none⟩, 3, 1⟩ ⟨true, .ok, none⟩ none).2.1.tcb_ptr
      = none := by
  have h := C5_amended_resumer_clears_slot ⟨some ⟨true, .paramErr, none⟩, 0, 1⟩
    ⟨true, .paramErr, none⟩ 1 true true true true rfl
  exact ⟨h.1, h.2.1, (h.2.2.2 ⟨some ⟨true, .ok, none⟩, 3, 1⟩ ⟨true, .ok, none⟩ none).1⟩

/-- C9 as stated is false at this input: atomEventWait called from
interrupt context on a valid event with no satisfied bits and timeout 0
returns ATOM_ERR_CONTEXT, but the caller value out-parameter has already
been zeroed (5 before the call, 0 after), so a ContextError return does
not leave the out-parameter untouched. -/
theorem C9_counterexample :
    (atomEventWaitEntry (some ⟨none, 0, 0⟩) 1 (some 5) 0 none true).status = .contextErr ∧
    (atomEventWaitEntry (some ⟨none, 0, 0⟩) 1 (some 5) 0 none true).value = some 0 ∧
    (some 0 : Option Nat) ≠ some 5 := by
  decide

/-- C9 amended: each of the five operations called with a null event
reference returns ATOM_ERR_PARAM with no state change anywhere (the wait
out-parameter included, since the NULL check precedes the zeroing);
atomEventSet with mask 0 likewise mutates nothing; and a ContextError
return leaves the event, the TCBs and all scheduler state untouched, but
atomEventWait has by then already zeroed the caller value out-parameter,
which is therefore not left untouched. -/
theorem C9_amended_validation_before_mutation (ev : ATOM_EVENT) (m : Nat) (v : Option Nat)
    (t : Int) (ctx : Option ATOM_TCB) (e c x rOk : Bool) :
    ((atomEventWaitEntry none m v t ctx rOk).status = .paramErr ∧
      (atomEventWaitEntry none m v t ctx rOk).value = v ∧
      (atomEventWaitEntry none m v t ctx rOk).curr_tcb = ctx ∧
      (atomEventWaitEntry none m v t ctx rOk).suspends = false ∧
      (atomEventWaitEntry none m v t ctx rOk).timer = none) ∧
    ((atomEventSet none m e c x).status = .paramErr ∧
      (atomEventSet none m e c x).event = none ∧
      (atomEventSet none m e c x).enqueuedWaiter = false ∧
      (atomEventSet none m e c x).schedCalled = false) ∧
    (atomEventClear none m = (.paramErr, none)) ∧
    (atomEventCreate none = (.paramErr, none)) ∧
    ((atomEventDelete none e c x).status = .paramErr ∧
      (atomEventDelete none e c x).event = none ∧
      (atomEventDelete none e c x).enqueuedWaiter = false ∧
      (atomEventDelete none e c x).schedCalled = false) ∧
    ((atomEventSet (some ev) 0 e c x).status = .paramErr ∧
      (atomEventSet (some ev) 0 e c x).event = some ev) ∧
    (ev.flags &&& m = 0 → 0 ≤ t →
      (atomEventWaitEntry (some ev) m v t none rOk).status = .contextErr ∧
      (atomEventWaitEntry (some ev) m v t none rOk).event = some ev ∧
      (atomEventWaitEntry (some ev) m v t none rOk).suspends = false ∧
      (atomEventWaitEntry (some ev) m v t none rOk).value = v.map (fun _ => 0)) := by
  refine ⟨⟨rfl, rfl, rfl, rfl, rfl⟩, ⟨rfl, rfl, rfl, rfl⟩, rfl, rfl,
    ⟨rfl, rfl, rfl, rfl⟩, ?_, ?_⟩
  · simp [atomEventSet]
  · intro h1 h2
    simp [atomEventWaitEntry, h1, h2]

theorem C9_amended_witness :
    (atomEventWaitEntry none 1 (some 7) 0 none true).status = AtomStatus.paramErr ∧
    (atomEventWaitEntry none 1 (some 7) 0 none true).value = some 7 ∧
    (atomEventSet none 1 true true true).status = AtomStatus.paramErr ∧
    atomEventClear none 1 = (AtomStatus.paramErr, none) ∧
    atomEventCreate none = (AtomStatus.paramErr, none) ∧
    (atomEventDelete none true true true).status = AtomStatus.paramErr ∧
    (atomEventWaitEntry (some ⟨none, 0, 0⟩) 1 (some 7) 0 none true).status
      = AtomStatus.contextErr ∧
    (atomEventWaitEntry (some ⟨none, 0, 0⟩) 1 (some 7) 0 none true).value
      = (some 7).map (fun _ => 0) := by
  have h := C9_amended_validation_before_mutation ⟨none, 0, 0⟩ 1 (some 7) 0 none
    true true true true
  have h7 := h.2.2.2.2.2.2 (by decide) (by decide)
  exact ⟨h.1.1, h.1.2.1, h.2.1.1, h.2.2.1, h.2.2.2.1, h.2.2.2.2.1.1, h7.1, h7.2.2.2⟩

end AtomEvent
